import Mathlib

/-!
Verification of the SecureVote polling application (PollList component and
App auth handling): shallow embedding of the data model, the vote submission
workflow `handleVote`, the poll fetcher `fetchPolls`, the render-time
projections (`hasVoted`, `isPollActive`, chart/count visibility, button
disabling) and the auth-state-change handler, with theorems for the
specified properties.
-/

namespace SecureVote

/-- A row of the `votes` table: references one poll, one option, one user. -/
structure VoteRow where
  id : String
  poll_id : String
  option_id : String
  user_id : String
  deriving DecidableEq, Repr

/-- A row of the `options` table. -/
structure OptionRow where
  id : String
  poll_id : String
  text : String
  deriving DecidableEq, Repr

/-- A row of the `polls` table.  Timestamps are modelled as naturals. -/
structure PollRow where
  id : String
  title : String
  description : String
  ends_at : Nat
  is_active : Bool
  created_at : Nat
  deriving DecidableEq, Repr

/-- An option with its nested votes, as returned by the composite read
`options ( *, votes (*) )`. -/
structure PollOption extends OptionRow where
  votes : List VoteRow
  deriving DecidableEq, Repr

/-- A poll with nested options and votes, the `Poll` type of PollList.tsx. -/
structure Poll extends PollRow where
  options : List PollOption
  deriving DecidableEq, Repr

/-- The authenticated user as exposed by the auth store. -/
structure User where
  id : String
  email : String
  deriving DecidableEq, Repr

/-- The backend database: the three tables the component reads and writes. -/
structure DB where
  polls : List PollRow
  options : List OptionRow
  votes : List VoteRow
  deriving DecidableEq, Repr

/-- Nest under an option row the votes referencing it (`votes (*)`). -/
def assembleOption (db : DB) (o : OptionRow) : PollOption :=
  { o with votes := db.votes.filter (fun v => v.option_id == o.id) }

/-- Nest under a poll row its options (`options (*, votes (*))`). -/
def assemblePoll (db : DB) (p : PollRow) : Poll :=
  { p with
    options := (db.options.filter (fun o => o.poll_id == p.id)).map (assembleOption db) }

/-- The composite read of `fetchPolls`: every poll with nested options and
votes, ordered by `created_at` descending. -/
def fetchAll (db : DB) : List Poll :=
  (db.polls.mergeSort (fun a b => decide (b.created_at ≤ a.created_at))).map
    (assemblePoll db)

/-- The backend insert on the `votes` table. -/
def insertVote (db : DB) (v : VoteRow) : DB :=
  { db with votes := db.votes ++ [v] }

/-- The render's `hasVoted`: the current user is present and some option of
the poll carries a vote by them. -/
def hasVoted (user : Option User) (poll : Poll) : Bool :=
  match user with
  | none => false
  | some u => poll.options.any (fun o => o.votes.any (fun v => v.user_id == u.id))

/-- The render's `isPollActive`: `new Date(poll.ends_at) > new Date() &&
poll.is_active`. -/
def isPollActive (now : Nat) (poll : Poll) : Bool :=
  decide (now < poll.ends_at) && poll.is_active

/-- The chart input `data`: for each option its text and `votes.length`. -/
def chartData (poll : Poll) : List (String × Nat) :=
  poll.options.map (fun o => (o.text, o.votes.length))

/-- Condition guarding the Results chart block:
`(isAdmin || hasVoted) && data.length > 0`. -/
def showResultsChart (isAdmin : Bool) (user : Option User) (poll : Poll) : Bool :=
  (isAdmin || hasVoted user poll) && decide (0 < (chartData poll).length)

/-- Condition guarding the per-option vote-count span: `isAdmin || hasVoted`. -/
def showVoteCount (isAdmin : Bool) (user : Option User) (poll : Poll) : Bool :=
  isAdmin || hasVoted user poll

/-- The option button's `disabled` condition:
`!user || hasVoted || !isPollActive || votingInProgress === poll.id`. -/
def optionButtonDisabled (user : Option User) (poll : Poll) (now : Nat)
    (votingInProgress : Option String) : Bool :=
  user.isNone || hasVoted user poll || !(isPollActive now poll) ||
    votingInProgress == some poll.id

/-- Outcome signal of one `handleVote` run, matching the toasts and returns. -/
inductive VoteResult where
  | signInRequired
  | inFlightRejected
  | alreadyVoted
  | voteFailed
  | voteSuccess
  deriving DecidableEq, Repr

/-- An insert request issued to the backend `votes` table. -/
structure InsertRequest where
  poll_id : String
  option_id : String
  user_id : String
  deriving DecidableEq, Repr

/-- Everything observable about one `handleVote` run: its outcome signal, the
final value of the `votingInProgress` marker, the existence-check request
issued (poll id, user id) if any, the insert request issued if any, and
whether the success re-fetch was triggered. -/
structure VoteOutcome where
  result : VoteResult
  votingInProgress : Option String
  checkReq : Option (String × String)
  insertReq : Option InsertRequest
  didRefetch : Bool
  deriving DecidableEq, Repr

/-- The vote submission workflow `handleVote`.  `user` and `votingInProgress`
are the component state it reads; `checkResp` is the backend's answer to the
`maybeSingle` existence check and `insertResp` the backend's answer to the
insert (each an error or a value).  The `finally` block clears the marker on
every path that set it. -/
def handleVote (user : Option User) (votingInProgress : Option String)
    (pollId optionId : String)
    (checkResp : Except Unit (Option VoteRow))
    (insertResp : Except Unit Unit) : VoteOutcome :=
  match user with
  | none => ⟨.signInRequired, votingInProgress, none, none, false⟩
  | some u =>
    if votingInProgress.isSome then
      ⟨.inFlightRejected, votingInProgress, none, none, false⟩
    else
      match checkResp with
      | .error _ => ⟨.voteFailed, none, some (pollId, u.id), none, false⟩
      | .ok (some _) => ⟨.alreadyVoted, none, some (pollId, u.id), none, false⟩
      | .ok none =>
        match insertResp with
        | .error _ =>
          ⟨.voteFailed, none, some (pollId, u.id), some ⟨pollId, optionId, u.id⟩, false⟩
        | .ok _ =>
          ⟨.voteSuccess, none, some (pollId, u.id), some ⟨pollId, optionId, u.id⟩, true⟩

/-- A click on an option button: fires `handleVote` only when the button is
not disabled. -/
def clickOption (user : Option User) (votingInProgress : Option String)
    (now : Nat) (poll : Poll) (optionId : String)
    (checkResp : Except Unit (Option VoteRow))
    (insertResp : Except Unit Unit) : Option VoteOutcome :=
  if optionButtonDisabled user poll now votingInProgress then none
  else some (handleVote user votingInProgress poll.id optionId checkResp insertResp)

/-- The PollList component state: `polls`, `loading`, `error`,
`votingInProgress`. -/
structure PollListState where
  polls : List Poll
  loading : Bool
  error : Option String
  votingInProgress : Option String
  deriving DecidableEq, Repr

/-- The initial `useState` values. -/
def initialPollListState : PollListState :=
  ⟨[], true, none, none⟩

/-- The fetch failure message shown by `fetchPolls`. -/
def fetchFailureMessage : String :=
  "Failed to load polls. Please try again."

/-- The fetcher `fetchPolls` as a state transition on the component state, applied to the
backend's response: on success `polls` is replaced by the response data
(empty list when the response carries none) and `error` cleared; on failure
`error` is set and `polls` left as they were; `loading` ends false either
way. -/
def fetchPolls (s : PollListState) (resp : Except Unit (Option (List Poll))) :
    PollListState :=
  match resp with
  | .ok d => { s with loading := false, error := none, polls := d.getD [] }
  | .error _ => { s with loading := false, error := some fetchFailureMessage }

/-- The action attached to the error panel's retry button. -/
inductive RetryAction where
  | fetchPollsRetry
  deriving DecidableEq, Repr

/-- The top-level view the component returns: the four early-return branches
of PollList, in source order. -/
inductive View where
  | loadingView (msg : String)
  | errorView (msg : String) (retry : RetryAction)
  | emptyView
  | pollsView (polls : List Poll)
  deriving DecidableEq, Repr

/-- The render of PollList: loading spinner, else error panel (whose retry
re-invokes `fetchPolls`), else empty placeholder, else the poll grid. -/
def render (s : PollListState) : View :=
  if s.loading then .loadingView "Loading polls..."
  else
    match s.error with
    | some e => .errorView e .fetchPollsRetry
    | none => if s.polls.isEmpty then .emptyView else .pollsView s.polls

/-- The session store's state: current user (absent means signed out) and the
administrator flag. -/
structure AuthState where
  user : Option User
  isAdmin : Bool
  deriving DecidableEq, Repr

/-- Modelled from the spec: the store mutator `reset` lives in
`src/store/authStore.ts`, which is not among the provided sources; §4.1 says
`reset` "clears both to signed-out state". -/
def reset (_s : AuthState) : AuthState :=
  ⟨none, false⟩

/-- Modelled from the spec: the store mutator `setUser` of
`src/store/authStore.ts` (not among the provided sources) sets the current
user identity. -/
def setUser (s : AuthState) (u : User) : AuthState :=
  { s with user := some u }

/-- Modelled from the spec: the store mutator `setIsAdmin` of
`src/store/authStore.ts` (not among the provided sources) sets the
administrator flag. -/
def setIsAdmin (s : AuthState) (b : Bool) : AuthState :=
  { s with isAdmin := b }

/-- The auth event as the handler distinguishes it: the literal
`SIGNED_OUT` versus anything else. -/
inductive AuthEvent where
  | signedOut
  | otherEvent
  deriving DecidableEq, Repr

/-- The `onAuthStateChange` handler of App: on `SIGNED_OUT` reset; else if the
session carries a user, set the user then load the profile's admin flag
(resetting on a profile-load failure); else reset.  `profileResp` is the
backend's answer to the profile lookup (`is_admin`, possibly null). -/
def onAuthStateChange (s : AuthState) (event : AuthEvent)
    (sessionUser : Option User)
    (profileResp : Except Unit (Option Bool)) : AuthState :=
  match event with
  | .signedOut => reset s
  | .otherEvent =>
    match sessionUser with
    | some u =>
      match profileResp with
      | .error _ => reset (setUser s u)
      | .ok p => setIsAdmin (setUser s u) (p.getD false)
    | none => reset s

/-- Total count of votes held by the options of `poll` whose id is `optId`
(in a well-formed fetch result there is exactly one such option). -/
def optionVoteCount (poll : Poll) (optId : String) : Nat :=
  (poll.options.map (fun o => if o.id == optId then o.votes.length else 0)).sum

/-! Concrete fixtures used by the witness theorems. -/

/-- A signed-in user. -/
def aliceUser : User :=
  ⟨"u1", "alice@example.com"⟩

/-- A poll row whose time window is still open. -/
def colorPollRow : PollRow :=
  ⟨"p1", "Favorite color", "Pick one", 100, true, 10⟩

/-- A small backend state: one poll with two options and no votes. -/
def sampleDB : DB :=
  ⟨[colorPollRow],
   [⟨"o1", "p1", "Red"⟩, ⟨"o2", "p1", "Blue"⟩],
   []⟩

/-- A vote by `aliceUser` for option `o2` of poll `p1`. -/
def blueVote : VoteRow :=
  ⟨"v1", "p1", "o2", "u1"⟩

/-- The open poll of `sampleDB` as the component sees it after a fetch. -/
def colorPoll : Poll :=
  assemblePoll sampleDB colorPollRow

/-- A poll whose `is_active` flag is false although its end time is in the
future. -/
def deactivatedPoll : Poll :=
  ⟨⟨"p2", "Closed early", "Deactivated", 100, false, 11⟩, []⟩

/-! Theorems for the specified properties. -/

/-- Claim C5: for every poll, `isPollActive` is true exactly when the end
timestamp is strictly in the future and the active flag is true; in
particular it is false whenever the active flag is false, regardless of the
end time. -/
theorem isPollActive_iff (now : Nat) (poll : Poll) :
    (isPollActive now poll = true ↔ (now < poll.ends_at ∧ poll.is_active = true)) ∧
    (poll.is_active = false → isPollActive now poll = false) := by
  constructor
  · simp [isPollActive]
  · intro h
    simp [isPollActive, h]

/-- Witness for `isPollActive_iff`: a deactivated poll with a future end time
is reported closed. -/
theorem isPollActive_iff_witness :
    deactivatedPoll.is_active = false ∧ isPollActive 0 deactivatedPoll = false :=
  ⟨rfl, (isPollActive_iff 0 deactivatedPoll).2 rfl⟩

/-- Claim C2: when the in-flight marker is non-null, `handleVote` returns at
once with a rejection signal, issues neither the existence check nor the
insert, leaves the marker as it was and triggers no re-fetch. -/
theorem handleVote_inflight_rejects (user : Option User)
    (votingInProgress : Option String) (p : String)
    (pollId optionId : String) (checkResp : Except Unit (Option VoteRow))
    (insertResp : Except Unit Unit)
    (h : votingInProgress = some p) :
    ((handleVote user votingInProgress pollId optionId checkResp insertResp).result =
        VoteResult.signInRequired ∨
      (handleVote user votingInProgress pollId optionId checkResp insertResp).result =
        VoteResult.inFlightRejected) ∧
    (handleVote user votingInProgress pollId optionId checkResp insertResp).checkReq = none ∧
    (handleVote user votingInProgress pollId optionId checkResp insertResp).insertReq = none ∧
    (handleVote user votingInProgress pollId optionId checkResp insertResp).votingInProgress =
      votingInProgress ∧
    (handleVote user votingInProgress pollId optionId checkResp insertResp).didRefetch = false := by
  subst h
  cases user <;> simp [handleVote]

/-- Witness for `handleVote_inflight_rejects`: a concrete second invocation
while a vote on poll `p1` is in flight. -/
theorem handleVote_inflight_rejects_witness :
    ((handleVote (some aliceUser) (some "p1") "p1" "o2" (Except.ok none)
        (Except.ok ())).result = VoteResult.signInRequired ∨
      (handleVote (some aliceUser) (some "p1") "p1" "o2" (Except.ok none)
        (Except.ok ())).result = VoteResult.inFlightRejected) ∧
    (handleVote (some aliceUser) (some "p1") "p1" "o2" (Except.ok none)
      (Except.ok ())).checkReq = none ∧
    (handleVote (some aliceUser) (some "p1") "p1" "o2" (Except.ok none)
      (Except.ok ())).insertReq = none ∧
    (handleVote (some aliceUser) (some "p1") "p1" "o2" (Except.ok none)
      (Except.ok ())).votingInProgress = some "p1" ∧
    (handleVote (some aliceUser) (some "p1") "p1" "o2" (Except.ok none)
      (Except.ok ())).didRefetch = false :=
  handleVote_inflight_rejects (some aliceUser) (some "p1") "p1" "p1" "o2"
    (Except.ok none) (Except.ok ()) rfl

/-- Claim C3: when the existence check answers with an existing vote, the
workflow reports already-voted and never issues an insert, for every choice
of option and whatever the insert oracle would have answered. -/
theorem handleVote_already_voted (u : User) (pollId optionId : String)
    (ev : VoteRow) (insertResp : Except Unit Unit) :
    (handleVote (some u) none pollId optionId (Except.ok (some ev))
        insertResp).result = VoteResult.alreadyVoted ∧
    (handleVote (some u) none pollId optionId (Except.ok (some ev))
        insertResp).insertReq = none ∧
    (handleVote (some u) none pollId optionId (Except.ok (some ev))
        insertResp).didRefetch = false := by
  simp [handleVote]

/-- Claim C7: on every completion of the workflow proper — success,
already-voted, or a failure at the check or insert step — the in-flight
marker ends cleared. -/
theorem handleVote_clears_marker (user : Option User)
    (votingInProgress : Option String) (pollId optionId : String)
    (checkResp : Except Unit (Option VoteRow)) (insertResp : Except Unit Unit)
    (h : (handleVote user votingInProgress pollId optionId checkResp insertResp).result =
          VoteResult.alreadyVoted ∨
        (handleVote user votingInProgress pollId optionId checkResp insertResp).result =
          VoteResult.voteFailed ∨
        (handleVote user votingInProgress pollId optionId checkResp insertResp).result =
          VoteResult.voteSuccess) :
    (handleVote user votingInProgress pollId optionId checkResp insertResp).votingInProgress =
      none := by
  rcases user with _ | u
  · simp [handleVote] at h
  · rcases votingInProgress with _ | p
    · rcases checkResp with e | ov
      · simp [handleVote]
      · rcases ov with _ | v
        · rcases insertResp with e | u' <;> simp [handleVote]
        · simp [handleVote]
    · simp [handleVote] at h

/-- Witness for `handleVote_clears_marker`: a concrete successful
submission ends with the marker cleared. -/
theorem handleVote_clears_marker_witness :
    (handleVote (some aliceUser) none "p1" "o2" (Except.ok none)
        (Except.ok ())).votingInProgress = none :=
  handleVote_clears_marker (some aliceUser) none "p1" "o2" (Except.ok none)
    (Except.ok ()) (Or.inr (Or.inr rfl))

/-- Claim C9: the in-memory poll collection starts as the empty list, and a
successful fetch whose response carries no data stores the empty list, so the
collection is always a well-defined list. -/
theorem polls_always_list :
    initialPollListState.polls = [] ∧
    ∀ s : PollListState, (fetchPolls s (Except.ok none)).polls = [] :=
  ⟨rfl, fun _ => rfl⟩

/-- Claim C10: every auth-state-change notification that carries no user —
whatever the event — clears the session store to the signed-out state, and
so does a profile-load failure during a notification that does carry a
user. -/
theorem authChange_clears_session (s : AuthState) (event : AuthEvent)
    (sessionUser : Option User) (profileResp : Except Unit (Option Bool))
    (h : sessionUser = none ∨ profileResp = Except.error ()) :
    onAuthStateChange s event sessionUser profileResp = ⟨none, false⟩ := by
  rcases h with h | h
  · subst h
    cases event <;> rfl
  · subst h
    cases event
    · rfl
    · cases sessionUser <;> rfl

/-- Witness for `authChange_clears_session`: a non-sign-out notification with
no user clears a signed-in admin session. -/
theorem authChange_clears_session_witness :
    onAuthStateChange ⟨some aliceUser, true⟩ AuthEvent.otherEvent none
      (Except.ok (some true)) = ⟨none, false⟩ :=
  authChange_clears_session ⟨some aliceUser, true⟩ AuthEvent.otherEvent none
    (Except.ok (some true)) (Or.inl rfl)

/-- Claim C8: for an anonymous viewer — no session user, hence the signed-out
store state with the admin flag false — the results chart and the per-option
vote counts are hidden on every poll, every option button is disabled, a
click fires nothing, and even a forced run of the workflow returns the
sign-in-required signal without contacting the backend. -/
theorem anonymous_viewer (isAdmin : Bool) (user : Option User) (poll : Poll)
    (now : Nat) (votingInProgress : Option String) (optionId : String)
    (checkResp : Except Unit (Option VoteRow)) (insertResp : Except Unit Unit)
    (hu : user = none) (ha : isAdmin = false) :
    showResultsChart isAdmin user poll = false ∧
    showVoteCount isAdmin user poll = false ∧
    optionButtonDisabled user poll now votingInProgress = true ∧
    clickOption user votingInProgress now poll optionId checkResp insertResp = none ∧
    (handleVote user votingInProgress poll.id optionId checkResp insertResp).result =
      VoteResult.signInRequired ∧
    (handleVote user votingInProgress poll.id optionId checkResp insertResp).checkReq = none ∧
    (handleVote user votingInProgress poll.id optionId checkResp insertResp).insertReq = none := by
  subst hu
  subst ha
  refine ⟨?_, ?_, ?_, ?_, rfl, rfl, rfl⟩
  · simp [showResultsChart, hasVoted]
  · simp [showVoteCount, hasVoted]
  · simp [optionButtonDisabled]
  · simp [clickOption, optionButtonDisabled]

/-- Witness for `anonymous_viewer`: the concrete open poll viewed with no
session. -/
theorem anonymous_viewer_witness :
    showResultsChart false none colorPoll = false ∧
    showVoteCount false none colorPoll = false ∧
    optionButtonDisabled none colorPoll 0 none = true ∧
    clickOption none none 0 colorPoll "o2" (Except.ok none) (Except.ok ()) = none ∧
    (handleVote none none colorPoll.id "o2" (Except.ok none) (Except.ok ())).result =
      VoteResult.signInRequired ∧
    (handleVote none none colorPoll.id "o2" (Except.ok none) (Except.ok ())).checkReq = none ∧
    (handleVote none none colorPoll.id "o2" (Except.ok none) (Except.ok ())).insertReq = none :=
  anonymous_viewer false none colorPoll 0 none "o2" (Except.ok none)
    (Except.ok ()) rfl rfl

/-- Claim C6: a failed fetch sets the retryable error state and ends the
loading state, and every state whose error is set (once loading has ended)
renders exactly the error panel — whose retry action is the same fetch —
with no poll data alongside. -/
theorem fetch_error_retryable (s t : PollListState) (e : String)
    (ht : t.loading = false) (he : t.error = some e) :
    (fetchPolls s (Except.error ())).error = some fetchFailureMessage ∧
    (fetchPolls s (Except.error ())).loading = false ∧
    render t = View.errorView e RetryAction.fetchPollsRetry := by
  refine ⟨rfl, rfl, ?_⟩
  simp [render, ht, he]

/-- Witness for `fetch_error_retryable`: the state right after a failed
initial fetch renders the error panel. -/
theorem fetch_error_retryable_witness :
    (fetchPolls initialPollListState (Except.error ())).error =
      some fetchFailureMessage ∧
    (fetchPolls initialPollListState (Except.error ())).loading = false ∧
    render (fetchPolls initialPollListState (Except.error ())) =
      View.errorView fetchFailureMessage RetryAction.fetchPollsRetry :=
  fetch_error_retryable initialPollListState
    (fetchPolls initialPollListState (Except.error ())) fetchFailureMessage
    rfl rfl

/-- Claim C1: whenever a click on an option button results in an insert being
issued, all four vote-permission conditions held: a user was present, that
user had not already voted on the poll, the poll was open, and no submission
was in flight for any poll. -/
theorem click_insert_requires_conditions (user : Option User)
    (votingInProgress : Option String) (now : Nat) (poll : Poll)
    (optionId : String) (checkResp : Except Unit (Option VoteRow))
    (insertResp : Except Unit Unit) (out : VoteOutcome)
    (hclick : clickOption user votingInProgress now poll optionId checkResp
        insertResp = some out)
    (hins : out.insertReq.isSome = true) :
    user.isSome = true ∧ hasVoted user poll = false ∧
    isPollActive now poll = true ∧ votingInProgress = none := by
  unfold clickOption at hclick
  by_cases hd : optionButtonDisabled user poll now votingInProgress = true
  · rw [if_pos hd] at hclick
    exact absurd hclick (by simp)
  · rw [if_neg hd] at hclick
    have hout : out = handleVote user votingInProgress poll.id optionId
        checkResp insertResp := (Option.some.injEq _ _ ▸ hclick.symm : _)
    subst hout
    simp only [Bool.not_eq_true] at hd
    simp only [optionButtonDisabled, Bool.or_eq_false_iff, Bool.not_eq_false] at hd
    obtain ⟨⟨⟨h1, h2⟩, h3⟩, h4⟩ := hd
    clear h4
    rcases user with _ | u
    · simp [handleVote] at hins
    · rcases votingInProgress with _ | p
      · refine ⟨rfl, h2, ?_, rfl⟩
        simpa using h3
      · simp [handleVote] at hins

/-- Witness for `click_insert_requires_conditions`: a concrete permitted
click whose workflow run issues the insert. -/
theorem click_insert_requires_conditions_witness :
    (some aliceUser : Option User).isSome = true ∧
    hasVoted (some aliceUser) colorPoll = false ∧
    isPollActive 0 colorPoll = true ∧
    (none : Option String) = none :=
  click_insert_requires_conditions (some aliceUser) none 0 colorPoll "o2"
    (Except.ok none) (Except.ok ())
    (handleVote (some aliceUser) none colorPoll.id "o2" (Except.ok none)
      (Except.ok ()))
    (by simp [clickOption, optionButtonDisabled, hasVoted, isPollActive,
      colorPoll, sampleDB, colorPollRow, assemblePoll, assembleOption])
    rfl

/-- The option row an assembled option carries is the row itself. -/
theorem assembleOption_id (db : DB) (o : OptionRow) :
    (assembleOption db o).id = o.id :=
  rfl

/-- Inserting a vote grows an assembled option's vote list by one exactly when
the vote references that option. -/
theorem assembleOption_insert_votes_length (db : DB) (v : VoteRow)
    (o : OptionRow) :
    (assembleOption (insertVote db v) o).votes.length =
      (assembleOption db o).votes.length +
        (if v.option_id == o.id then 1 else 0) := by
  unfold assembleOption insertVote
  simp only [List.filter_append, List.length_append, List.filter_cons,
    List.filter_nil]
  by_cases h : (v.option_id == o.id) = true <;> simp [h]

/-- Summed counts over a list of option rows after an insert: the count for
`oid` grows by the number of rows with id `oid` when the inserted vote
references `oid`, and is unchanged otherwise. -/
theorem sum_counts_insert (db : DB) (v : VoteRow) (os : List OptionRow)
    (oid : String) :
    ((os.map (assembleOption (insertVote db v))).map
        (fun o => if o.id == oid then o.votes.length else 0)).sum =
      ((os.map (assembleOption db)).map
          (fun o => if o.id == oid then o.votes.length else 0)).sum +
        (if oid = v.option_id then
          ((os.map (assembleOption db)).filter (fun o => o.id == oid)).length
        else 0) := by
  induction os with
  | nil => simp
  | cons o os ih =>
    simp only [List.map_cons, List.sum_cons, List.filter_cons, assembleOption_id,
      assembleOption_insert_votes_length]
    rw [ih]
    by_cases h3 : oid = v.option_id
    · subst h3
      by_cases h1 : o.id = v.option_id
      · have h2 : (v.option_id == o.id) = true := by simp [h1]
        simp [h1, h2]
        omega
      · have h2 : (v.option_id == o.id) = false := by
          simp only [beq_eq_false_iff_ne, ne_eq]
          exact fun hx => h1 hx.symm
        simp [h1, h2]
    · rw [if_neg h3, if_neg h3]
      by_cases h1 : o.id = oid
      · have h2 : (v.option_id == o.id) = false := by
          simp only [beq_eq_false_iff_ne, ne_eq, h1]
          exact fun hx => h3 hx.symm
        simp [h1, h2]
        exact fun hx => h3 hx.symm
      · simp [h1]

/-- After an insert, the per-option-id vote count of an assembled poll grows
by the number of that poll's option rows carrying the inserted vote's option
id, and only for that id. -/
theorem optionVoteCount_insert (db : DB) (v : VoteRow) (p : PollRow)
    (oid : String) :
    optionVoteCount (assemblePoll (insertVote db v) p) oid =
      optionVoteCount (assemblePoll db p) oid +
        (if oid = v.option_id then
          ((assemblePoll db p).options.filter (fun o => o.id == oid)).length
        else 0) := by
  unfold optionVoteCount assemblePoll
  exact sum_counts_insert db v (db.options.filter (fun o => o.poll_id == p.id)) oid

/-- Claim C4: for every poll of a fetch, the fetch following a vote insert
contains the same poll (same row data) in which the inserted vote's option —
when the poll has exactly one option with that id — counts exactly one more
vote, and every other option id counts exactly as before. -/
theorem fetch_after_insert (db : DB) (v : VoteRow) (q : Poll)
    (hq : q ∈ fetchAll db) :
    ∃ q' ∈ fetchAll (insertVote db v),
      q'.toPollRow = q.toPollRow ∧
      (∀ oid, oid ≠ v.option_id → optionVoteCount q' oid = optionVoteCount q oid) ∧
      ((q.options.filter (fun o => o.id == v.option_id)).length = 1 →
        optionVoteCount q' v.option_id = optionVoteCount q v.option_id + 1) := by
  unfold fetchAll at hq
  obtain ⟨p, hp, rfl⟩ := List.mem_map.mp hq
  refine ⟨assemblePoll (insertVote db v) p, ?_, rfl, ?_, ?_⟩
  · unfold fetchAll
    exact List.mem_map_of_mem _ hp
  · intro oid hne
    rw [optionVoteCount_insert, if_neg hne, Nat.add_zero]
  · intro hone
    rw [optionVoteCount_insert, if_pos rfl, hone]

/-- Witness for `fetch_after_insert`: in the concrete backend, inserting
`blueVote` bumps option `o2` of the colour poll from zero to one vote and
leaves `o1` untouched. -/
theorem fetch_after_insert_witness :
    ∃ q' ∈ fetchAll (insertVote sampleDB blueVote),
      q'.toPollRow = colorPoll.toPollRow ∧
      (∀ oid, oid ≠ blueVote.option_id →
        optionVoteCount q' oid = optionVoteCount colorPoll oid) ∧
      ((colorPoll.options.filter (fun o => o.id == blueVote.option_id)).length = 1 →
        optionVoteCount q' blueVote.option_id =
          optionVoteCount colorPoll blueVote.option_id + 1) :=
  fetch_after_insert sampleDB blueVote colorPoll
    (by simp [fetchAll, sampleDB, colorPoll, colorPollRow])

end SecureVote
